import Mathlib

/-!
Shallow embedding of the AquaPulse repository (models.py, aws_services.py,
routes.py) together with proofs settling the specification claims about it.

Python values are embedded as follows: floats become rationals (ℚ, written
with `mkRat` so that terms evaluate) with the rounding the source performs
made explicit, ints become ℤ/ℕ, byte strings become `List ℕ`, dictionaries
become structures, `None`-able values become `Option`, and code that can
raise becomes `Except`/`Option`-returning functions.  Random draws made by
the source (`uniform`, `randint`, `choice`) are passed in as explicit
parameters, and external SDK/database calls are passed in as `Except` values
so that both their success and failure paths are represented.
-/

set_option maxRecDepth 8000
set_option linter.unusedVariables false

namespace AquaPulse

/-- Python `max(a, b)` on numbers. -/
def pyMax (a b : ℚ) : ℚ := if a ≤ b then b else a

/-- Python `min(a, b)` on numbers. -/
def pyMin (a b : ℚ) : ℚ := if b ≤ a then b else a

/-- Python `round` uses banker's rounding (round half to even).
`bankersRound q` rounds a rational to the nearest integer, ties to even. -/
def bankersRound (q : ℚ) : ℤ :=
  let f := ⌊q⌋
  if q - f < mkRat 1 2 then f
  else if mkRat 1 2 < q - f then f + 1
  else if f % 2 = 0 then f else f + 1

/-- Python `round(x, 1)`: round to one decimal place. -/
def round1 (q : ℚ) : ℚ := mkRat (bankersRound (q * 10)) 10

/-- Python `round(x, 4)`: round to four decimal places. -/
def round4 (q : ℚ) : ℚ := mkRat (bankersRound (q * 10000)) 10000

/-- Python `int(x)` on a float/rational: truncation toward zero. -/
def pyInt (q : ℚ) : ℤ := if q < 0 then ⌈q⌉ else ⌊q⌋

/-- Python `f"{i:03d}"`: decimal with leading zeros to width 3. -/
def pad3 (i : ℕ) : String :=
  if i < 10 then "00" ++ toString i
  else if i < 100 then "0" ++ toString i
  else toString i

/-- A sensor document as built by the generators in models.py (`seed_db`,
`initialize_sample_data`) and aws_services.py (`_generate_dynamic_sensor_data`).
The particle-count field is keyed `"microplastics"` in models.py and
`"microalgae"` in aws_services.py; it is the single field `micro` here. -/
structure SensorRecord where
  id : String
  location : String
  lat : ℚ
  lng : ℚ
  pollution_level : ℚ
  status : String
  timestamp : String
  micro : ℤ
  temperature : ℚ
  turbidity : ℚ
  stored_at : Option ℕ := none
deriving Repr, DecidableEq

/-- The status-derivation rule appearing in `MongoDBManager.seed_db`
(models.py lines 475-479) and `AWSServices._generate_dynamic_sensor_data`
(aws_services.py lines 135-139): start from `"active"`, switch to
`"critical"` when the level exceeds 8 and to `"warning"` when it exceeds 6. -/
def deriveStatus (pollution_level : ℚ) : String :=
  if pollution_level > 8 then "critical"
  else if pollution_level > 6 then "warning"
  else "active"

/-- One sensor document built by `MongoDBManager.seed_db` (models.py lines
472-491).  The random draws are parameters: `rawLevel` is `uniform(2, 10)`,
`latJitter`/`lngJitter` are `uniform(-1, 1)`, `microJitter` is
`randint(0, 500)`, `tempDraw` is `uniform(-5, 15)`, `turbJitter` is
`randint(0, 50)`.  Note the level is rounded first and the status is then
derived from the rounded value. -/
def seedSensor (i : ℕ) (locName : String) (locLat locLng : ℚ)
    (rawLevel latJitter lngJitter : ℚ) (ts : String)
    (microJitter : ℕ) (tempDraw : ℚ) (turbJitter : ℕ) : SensorRecord :=
  let pollution_level := round1 rawLevel
  { id := "sensor_" ++ pad3 i
    location := locName
    lat := round4 (locLat + latJitter)
    lng := round4 (locLng + lngJitter)
    pollution_level := pollution_level
    status := deriveStatus pollution_level
    timestamp := ts
    micro := pyInt (pollution_level * 1000 + (microJitter : ℚ))
    temperature := round1 (15 + tempDraw)
    turbidity := round1 (pollution_level * 10 + (turbJitter : ℚ))
    stored_at := none }

/-- The per-region base pollution level in `_generate_dynamic_sensor_data`
(aws_services.py lines 123-129): a dict lookup with default 5.0. -/
def basePollution (name : String) : ℚ :=
  if name = "Mediterranean Sea" then mkRat 85 10
  else if name = "Pacific Ocean" then 7
  else if name = "Atlantic Ocean" then mkRat 55 10
  else if name = "Indian Ocean" then 6
  else if name = "Arctic Ocean" then 3
  else 5

/-- One sensor document built by `AWSServices._generate_dynamic_sensor_data`
(aws_services.py lines 97-164).  `pollutionDraw` is `uniform(-1.0, 1.0)`,
`latDraw`/`lngDraw` are the in-region coordinate draws, `microJitter` is
`randint(0, 500)`, `tempDraw` is `uniform(-10, 15)`, `turbJitter` is
`randint(0, 50)`.  The raw level is clamped to [0.1, 10.0]; the status is
derived from the clamped UNROUNDED level, while the stored
`pollution_level` field is that level rounded to one decimal. -/
def dynamicSensor (ts i : ℕ) (regionName : String)
    (latDraw lngDraw pollutionDraw : ℚ) (tsIso : String)
    (microJitter : ℕ) (tempDraw : ℚ) (turbJitter : ℕ) : SensorRecord :=
  let pollution_level := pyMax (mkRat 1 10) (pyMin 10 (basePollution regionName + pollutionDraw))
  let status := deriveStatus pollution_level
  { id := "sensor_" ++ toString ts ++ "_" ++ pad3 i
    location := regionName
    lat := round4 latDraw
    lng := round4 lngDraw
    pollution_level := round1 pollution_level
    status := status
    timestamp := tsIso
    micro := pyInt (pollution_level * 1000 + (microJitter : ℚ))
    temperature := round1 (20 + tempDraw)
    turbidity := round1 (pollution_level * 10 + (turbJitter : ℚ))
    stored_at := none }

/-- The hard-coded sample tuples in `MongoDBManager.initialize_sample_data`
(models.py lines 431-437): (location, lat, lng, pollution_level, status). -/
def sampleSensorTuples : List (String × ℚ × ℚ × ℚ × String) :=
  [("Pacific Ocean", mkRat 356762 10000, mkRat 1396503 10000, mkRat 72 10, "active"),
   ("Atlantic Ocean", mkRat 407128 10000, mkRat (-740060) 10000, mkRat 58 10, "active"),
   ("Mediterranean Sea", mkRat 437696 10000, mkRat 112558 10000, mkRat 91 10, "warning"),
   ("Indian Ocean", mkRat (-338688) 10000, mkRat 1512093 10000, mkRat 64 10, "active"),
   ("Arctic Ocean", mkRat 710489 10000, mkRat (-80173) 10000, mkRat 32 10, "active")]

/-- The sample sensor documents built by `initialize_sample_data`
(models.py lines 418-438); `ts` stands for `datetime.now().isoformat()`. -/
def initializeSampleData (ts : String) : List SensorRecord :=
  sampleSensorTuples.enum.map (fun p =>
    match p with
    | (i, (location, lat, lng, pollution_level, status)) =>
      { id := "sensor_init_" ++ pad3 i
        location := location
        lat := lat
        lng := lng
        pollution_level := pollution_level
        status := status
        timestamp := ts
        micro := pyInt (pollution_level * 1000)
        temperature := 20 + (i : ℚ) * 2
        turbidity := pollution_level * 10
        stored_at := none })

/-- The severity tag attached to alerts in `api_ai_alerts`
(routes.py line 518): `'high' if sensor['pollution_level'] > 8 else 'medium'`. -/
def alertSeverity (pollution_level : ℚ) : String :=
  if pollution_level > 8 then "high" else "medium"

/-- C1 counterexample: `_generate_dynamic_sensor_data` derives the status from
the pre-rounding level and stores the rounded level, so a draw of -0.46 in the
Mediterranean region (raw level 8.04) yields a record whose stored
pollution_level is 8.0 with status "critical", though the claimed rule maps a
pollution_level of 8.0 (which satisfies 6 < 8.0 ≤ 8) to "warning". -/
theorem c1_counterexample :
    6 < (dynamicSensor 1700000000 0 "Mediterranean Sea" 40 15 (mkRat (-46) 100) "t" 0 0 0).pollution_level ∧
    (dynamicSensor 1700000000 0 "Mediterranean Sea" 40 15 (mkRat (-46) 100) "t" 0 0 0).pollution_level ≤ 8 ∧
    (dynamicSensor 1700000000 0 "Mediterranean Sea" 40 15 (mkRat (-46) 100) "t" 0 0 0).status ≠ "warning" := by
  with_unfolding_all decide

/-- C1 (amended): the derived status is the threshold rule applied to the
pollution level before rounding.  In `seed_db` the level is rounded first, so
the stored status equals the rule applied to the stored pollution_level; in
`_generate_dynamic_sensor_data` the stored status equals the rule applied to
the clamped pre-rounding level, which near a threshold may differ from the
rule applied to the stored rounded value. -/
theorem c1_status_rule :
    (∀ i locName locLat locLng rawLevel latJ lngJ ts microJ tempD turbJ,
      (seedSensor i locName locLat locLng rawLevel latJ lngJ ts microJ tempD turbJ).status
        = deriveStatus
          (seedSensor i locName locLat locLng rawLevel latJ lngJ ts microJ tempD turbJ).pollution_level)
    ∧ (∀ ts i regionName latD lngD pollutionD tsIso microJ tempD turbJ,
      (dynamicSensor ts i regionName latD lngD pollutionD tsIso microJ tempD turbJ).status
        = deriveStatus (pyMax (mkRat 1 10) (pyMin 10 (basePollution regionName + pollutionD)))) := by
  exact ⟨fun _ _ _ _ _ _ _ _ _ _ _ => rfl, fun _ _ _ _ _ _ _ _ _ _ => rfl⟩

/-- C7: the sample record for "Mediterranean Sea" with pollution_level 9.1 in
`initialize_sample_data` is hard-coded with status "warning", although the
repository's own derivation rule (and the claim) give "critical" for 9.1;
the alert severity for pollution_level 9.1 is "high" as claimed. -/
theorem c7_sample_status_bug :
    (∃ r ∈ initializeSampleData "t",
      r.location = "Mediterranean Sea" ∧ r.pollution_level = mkRat 91 10 ∧
      r.status = "warning" ∧ r.status ≠ "critical") ∧
    deriveStatus (mkRat 91 10) = "critical" ∧ alertSeverity (mkRat 91 10) = "high" := by
  with_unfolding_all decide

/-- C8 counterexample: a sensor record derived by `seed_db` from a raw level
of 6.4 stores pollution_level 6.4 with status "warning" (6.4 > 6), not
"active" as the claim states. -/
theorem c8_counterexample :
    (seedSensor 3 "Indian Ocean" (-20) 80 (mkRat 64 10) 0 0 "t" 0 0 0).pollution_level = mkRat 64 10 ∧
    (seedSensor 3 "Indian Ocean" (-20) 80 (mkRat 64 10) 0 0 "t" 0 0 0).status = "warning" ∧
    (seedSensor 3 "Indian Ocean" (-20) 80 (mkRat 64 10) 0 0 "t" 0 0 0).status ≠ "active" := by
  with_unfolding_all decide

/-- C8 (amended): for every sensor record derived from pollution_level 6.4 the
status is "warning" (since 6.4 > 6); only the hard-coded sample record in
`initialize_sample_data` pairs a 6.4 level with status "active". -/
theorem c8_derived_status_64 :
    (∀ i locName locLat locLng latJ lngJ ts microJ tempD turbJ,
      (seedSensor i locName locLat locLng (mkRat 64 10) latJ lngJ ts microJ tempD turbJ).status = "warning")
    ∧ deriveStatus (mkRat 64 10) = "warning"
    ∧ (∃ r ∈ initializeSampleData "t", r.pollution_level = mkRat 64 10 ∧ r.status = "active") := by
  refine ⟨?_, by with_unfolding_all decide, by with_unfolding_all decide⟩
  intro i locName locLat locLng latJ lngJ ts microJ tempD turbJ
  show deriveStatus (round1 (mkRat 64 10)) = "warning"
  with_unfolding_all decide

/-! ## Document store: sensor inserts (models.py `store_sensor_data`) -/

/-- MongoDB `insert_one` on the `sensors` collection under its uniqueness
constraint on the sensor key: inserting a document whose `id` already exists
in the collection raises `DuplicateKeyError` (modelled as `Except.error ()`),
otherwise the document is appended. -/
def insertOne (store : List SensorRecord) (doc : SensorRecord) :
    Except Unit (List SensorRecord) :=
  if store.any (fun d => d.id = doc.id) then .error () else .ok (store ++ [doc])

/-- `MongoDBManager.store_sensor_data` (models.py lines 29-42): walk the
list, stamp each document with `stored_at = datetime.now()`, insert it,
silently skip on `DuplicateKeyError` (`continue`) and return `True` at the
end.  The outer `except` branch returning `False` is unreachable here since
no failure other than a duplicate key is modelled. -/
def store_sensor_data (now : ℕ) :
    List SensorRecord → List SensorRecord → List SensorRecord × Bool
  | store, [] => (store, true)
  | store, sensor :: rest =>
    let s := { sensor with stored_at := some now }
    match insertOne store s with
    | .ok newStore => store_sensor_data now newStore rest
    | .error _ => store_sensor_data now store rest

theorem store_sensor_data_returns_true (sensors : List SensorRecord)
    (store : List SensorRecord) (now : ℕ) :
    (store_sensor_data now store sensors).2 = true := by
  induction sensors generalizing store with
  | nil => rfl
  | cons sensor rest ih =>
    unfold store_sensor_data
    rcases h : insertOne store { sensor with stored_at := some now } with _ | newStore <;>
      simp [h, ih]

theorem store_sensor_data_key_mono (sensors : List SensorRecord)
    (store : List SensorRecord) (now : ℕ) (k : String)
    (h : store.any (fun d => d.id = k) = true) :
    ((store_sensor_data now store sensors).1.any (fun d => d.id = k)) = true := by
  induction sensors generalizing store with
  | nil => exact h
  | cons sensor rest ih =>
    unfold store_sensor_data
    rcases hins : insertOne store { sensor with stored_at := some now } with _ | newStore
    · simpa [hins] using ih store h
    · have hnew : newStore = store ++ [{ sensor with stored_at := some now }] := by
        by_cases hdup : store.any (fun d => d.id = ({ sensor with stored_at := some now } : SensorRecord).id) = true
        · simp [insertOne, hdup] at hins
        · simp only [insertOne, Bool.not_eq_true] at hdup
          simp [insertOne, hdup] at hins
          exact hins.symm
      have : (newStore.any (fun d => d.id = k)) = true := by
        subst hnew; rw [List.any_append, h]; rfl
      simpa [hins] using ih newStore this

theorem store_sensor_data_filter_frozen (sensors : List SensorRecord)
    (store : List SensorRecord) (now : ℕ) (k : String)
    (h : store.any (fun d => d.id = k) = true) :
    ((store_sensor_data now store sensors).1.filter (fun d => d.id = k))
      = store.filter (fun d => d.id = k) := by
  induction sensors generalizing store with
  | nil => rfl
  | cons sensor rest ih =>
    unfold store_sensor_data
    rcases hins : insertOne store { sensor with stored_at := some now } with _ | newStore
    · simpa [hins] using ih store h
    · have hnodup : ¬ (store.any (fun d => d.id = ({ sensor with stored_at := some now } : SensorRecord).id) = true) := by
        intro hdup
        simp [insertOne, hdup] at hins
      have hnew : newStore = store ++ [{ sensor with stored_at := some now }] := by
        simp only [Bool.not_eq_true] at hnodup
        simp [insertOne, hnodup] at hins
        exact hins.symm
      have hkne : ({ sensor with stored_at := some now } : SensorRecord).id ≠ k := by
        intro hk
        rw [hk] at hnodup
        exact hnodup h
      have hany : (newStore.any (fun d => d.id = k)) = true := by
        subst hnew; rw [List.any_append, h]; rfl
      have hfilter : newStore.filter (fun d => d.id = k) = store.filter (fun d => d.id = k) := by
        subst hnew; simp [List.filter_append, hkne]
      simp only [hins]
      rw [ih newStore hany, hfilter]

/-- C2: re-inserting sensor documents whose unique key `k` already exists in
the store neither raises (the walk is total and the Bool result is `true`,
i.e. the `DuplicateKeyError` is swallowed and the loop continues) nor changes
the set of stored documents carrying that key. -/
theorem c2_duplicate_insert_idempotent (now : ℕ)
    (store sensors : List SensorRecord) (k : String)
    (hdup : ∃ d ∈ store, d.id = k) :
    (store_sensor_data now store sensors).2 = true ∧
    ((store_sensor_data now store sensors).1.filter (fun d => d.id = k))
      = store.filter (fun d => d.id = k) := by
  have hany : store.any (fun d => d.id = k) = true := by
    rcases hdup with ⟨d, hd, hk⟩
    exact List.any_eq_true.2 ⟨d, hd, by simp [hk]⟩
  exact ⟨store_sensor_data_returns_true sensors store now,
    store_sensor_data_filter_frozen sensors store now k hany⟩

/-- A concrete sensor document used to instantiate theorems. -/
def demoSensor (sid : String) : SensorRecord :=
  { id := sid, location := "Pacific Ocean", lat := 35, lng := 140,
    pollution_level := 5, status := "active", timestamp := "t",
    micro := 5000, temperature := 20, turbidity := 50, stored_at := none }

/-- C2 witness: re-inserting `sensor_000` into a store that already holds it
leaves the store's records for that key unchanged and still returns `True`. -/
theorem c2_duplicate_insert_idempotent_witness :
    ((store_sensor_data 7 [demoSensor "sensor_000"]
        [demoSensor "sensor_000", demoSensor "sensor_001"]).2 = true ∧
    ((store_sensor_data 7 [demoSensor "sensor_000"]
        [demoSensor "sensor_000", demoSensor "sensor_001"]).1.filter
          (fun d => d.id = "sensor_000"))
      = [demoSensor "sensor_000"].filter (fun d => d.id = "sensor_000")) :=
  c2_duplicate_insert_idempotent 7 [demoSensor "sensor_000"]
    [demoSensor "sensor_000", demoSensor "sensor_001"] "sensor_000"
    ⟨demoSensor "sensor_000", by simp, rfl⟩

/-! ## Document store: aggregation and reporting (models.py) -/

/-- A label returned by Rekognition image analysis, as filtered by
`AWSServices.analyze_image` (aws_services.py lines 235-256). -/
structure LabelInfo where
  name : String
  confidence : ℚ
deriving Repr, DecidableEq

/-- A citizen pollution-report document, shaped as `submit_report`
(routes.py lines 149-206) builds it and `store_pollution_report`
(models.py lines 58-66) stamps it. -/
structure ReportDoc where
  location_name : Option String := none
  description : Option String := none
  pollution_level : ℤ := 0
  reporter_name : String := "Anonymous"
  contact : String := ""
  severity : String := "medium"
  lat : Option ℚ := none
  lng : Option ℚ := none
  image_path : Option String := none
  image_analysis : Option (List LabelInfo) := none
  reported_at : Option ℕ := none
deriving Repr, DecidableEq

/-- One group produced by the `$group`/`$sort` pipeline in
`get_pollution_statistics` (models.py lines 77-86): `_id` is the location,
with the average pollution level and the document count of the group. -/
structure RegionStat where
  location : String
  avg_pollution : ℚ
  count : ℕ
deriving Repr, DecidableEq

/-- Stable insertion into a Bool-ordered list; `insertSorted le x l` places
`x` before the first element `y` with `le x y`. -/
def insertSorted (le : α → α → Bool) (x : α) : List α → List α
  | [] => [x]
  | y :: ys => if le x y then x :: y :: ys else y :: insertSorted le x ys

/-- Stable sort by a Bool-valued order, modelling MongoDB's stable `$sort`. -/
def sortStable (le : α → α → Bool) (l : List α) : List α :=
  l.foldr (insertSorted le) []

/-- The aggregation pipeline of `get_pollution_statistics` (models.py lines
77-86): group the `sensors` collection by `$location`, taking `$avg` of
`pollution_level` and a `$sum: 1` count, then sort by `avg_pollution`
descending. -/
def regionStatistics (sensors : List SensorRecord) : List RegionStat :=
  let keys := (sensors.map (fun s => s.location)).eraseDups
  let stats := keys.map (fun k =>
    let grp := sensors.filter (fun s => s.location = k)
    { location := k
      avg_pollution := (grp.map (fun s => s.pollution_level)).sum / (grp.length : ℚ)
      count := grp.length })
  sortStable (fun a b => decide (b.avg_pollution ≤ a.avg_pollution)) stats

/-- The summary object returned by `get_pollution_statistics`. -/
structure PollutionStats where
  total_reports : ℕ
  reports_today : ℕ
  region_statistics : List RegionStat
deriving Repr, DecidableEq

/-- `MongoDBManager.get_pollution_statistics` (models.py lines 68-95):
`count_documents({})`, `count_documents({'reported_at': {'$gte': start of
today}})` (documents without the field do not match `$gte`), and the region
aggregation over the sensors collection. -/
def get_pollution_statistics (reports : List ReportDoc)
    (sensors : List SensorRecord) (startOfDay : ℕ) : PollutionStats :=
  { total_reports := reports.length
    reports_today := (reports.filter (fun r =>
      match r.reported_at with
      | some t => decide (startOfDay ≤ t)
      | none => false)).length
    region_statistics := regionStatistics sensors }

/-- The robot counters summed by `get_cleanup_data`. -/
structure Robots where
  ocean_drones : ℕ
  surface_vessels : ℕ
  underwater_units : ℕ
deriving Repr, DecidableEq

/-- A cleanup-mission document as seeded by `seed_db` (models.py lines
495-513); `robots` models `mission.get('robots', {})` with the per-key
`.get(k, 0)` defaults, and `next_deployment` is `None`-able. -/
structure Mission where
  mission_id : String := ""
  region : String := ""
  status : String := ""
  robots : Robots := ⟨0, 0, 0⟩
  waste_collected : ℕ := 0
  next_deployment : Option String := none
deriving Repr, DecidableEq

/-- The aggregate returned by `get_cleanup_data`. -/
structure CleanupData where
  active_missions : ℕ
  cleanup_robots : Robots
  waste_collected_today : ℕ
  hotspots_addressed : ℕ
  next_deployment : String
deriving Repr, DecidableEq

/-- Python truthiness of an optional string: `None` and `''` are falsy. -/
def truthyStr (s : Option String) : Bool :=
  match s with
  | none => false
  | some str => str ≠ ""

/-- One iteration of the `for mission in missions` loop of
`get_cleanup_data` (models.py lines 556-567). -/
def cleanupStep (acc : Robots × ℕ × ℕ × ℕ × Option String) (mission : Mission) :
    Robots × ℕ × ℕ × ℕ × Option String :=
  match acc with
  | (robots, active, waste, hotspots, nextDep) =>
    let robots : Robots :=
      { ocean_drones := robots.ocean_drones + mission.robots.ocean_drones
        surface_vessels := robots.surface_vessels + mission.robots.surface_vessels
        underwater_units := robots.underwater_units + mission.robots.underwater_units }
    let active := if mission.status = "active" then active + 1 else active
    let waste := waste + mission.waste_collected
    let hotspots := if mission.status = "completed" then hotspots + 1 else hotspots
    let nextDep :=
      if !truthyStr nextDep && truthyStr mission.next_deployment
      then mission.next_deployment else nextDep
    (robots, active, waste, hotspots, nextDep)

/-- `MongoDBManager.get_cleanup_data` (models.py lines 547-583): fold the
loop over all missions starting from zero counters and `next_deployment =
None`, then return the summary with `next_deployment or ''`. -/
def get_cleanup_data (missions : List Mission) : CleanupData :=
  match missions.foldl cleanupStep (⟨0, 0, 0⟩, 0, 0, 0, none) with
  | (robots, active, waste, hotspots, nextDep) =>
    { active_missions := active
      cleanup_robots := robots
      waste_collected_today := waste
      hotspots_addressed := hotspots
      next_deployment := if truthyStr nextDep then nextDep.getD "" else "" }

/-- C3: both aggregation/reporting queries are total (they never raise in
this embedding) and on empty collections return the zeroed summary objects:
`get_pollution_statistics` gives 0 total reports, 0 reports today and an
empty region list, and `get_cleanup_data` gives zero robot counts, zero
waste, zero hotspots, zero active missions and an empty `next_deployment`. -/
theorem c3_empty_aggregations (startOfDay : ℕ) :
    get_pollution_statistics [] [] startOfDay
      = { total_reports := 0, reports_today := 0, region_statistics := [] } ∧
    get_cleanup_data []
      = { active_missions := 0, cleanup_robots := ⟨0, 0, 0⟩,
          waste_collected_today := 0, hotspots_addressed := 0,
          next_deployment := "" } :=
  ⟨rfl, rfl⟩

/-! ## Predictions (aws_services.py `get_prediction_data`) -/

/-- A raw sensor document as read back from MongoDB by
`get_recent_sensor_data` and consumed through `.get(...)` accessors in
`get_prediction_data`; either field may be absent. -/
structure SensorDoc where
  location : Option String := none
  pollution_level : Option ℚ := none
deriving Repr, DecidableEq

/-- A prediction entry as built by `get_prediction_data`. -/
structure Prediction where
  region : String
  current_level : ℚ
  predicted_7days : ℚ
  predicted_30days : ℚ
  trend : String
  confidence : ℕ
deriving Repr, DecidableEq

/-- The per-sensor prediction of `AWSServices.get_prediction_data`
(aws_services.py lines 269-277). -/
def mkPrediction (sensor : SensorDoc) : Prediction :=
  { region := sensor.location.getD "Unknown"
    current_level := sensor.pollution_level.getD 0
    predicted_7days := sensor.pollution_level.getD 0
    predicted_30days := sensor.pollution_level.getD 0
    trend := "stable"
    confidence := 90 }

/-- `AWSServices.get_prediction_data` (aws_services.py lines 258-281):
return `[]` when there is no sensor data, otherwise one prediction entry per
sensor document. -/
def get_prediction_data (sensor_data : List SensorDoc) : List Prediction :=
  match sensor_data with
  | [] => []
  | _ => sensor_data.map mkPrediction

/-- C6: every prediction entry copies the sensor's current pollution level
forward unchanged (`predicted_7days = predicted_30days = current_level`),
with trend "stable" and confidence 90. -/
theorem c6_prediction_copies_level (sensor_data : List SensorDoc)
    (p : Prediction) (hp : p ∈ get_prediction_data sensor_data) :
    p.predicted_7days = p.current_level ∧ p.predicted_30days = p.current_level ∧
    p.trend = "stable" ∧ p.confidence = 90 := by
  rcases sensor_data with _ | ⟨s, rest⟩
  · simp [get_prediction_data] at hp
  · rcases List.mem_map.1 hp with ⟨d, _, rfl⟩
    exact ⟨rfl, rfl, rfl, rfl⟩

/-- C6 witness: the prediction built from a Pacific Ocean sensor document at
level 7.2 satisfies the copy-forward properties. -/
theorem c6_prediction_copies_level_witness :
    (mkPrediction ⟨some "Pacific Ocean", some (mkRat 72 10)⟩).predicted_7days
      = (mkPrediction ⟨some "Pacific Ocean", some (mkRat 72 10)⟩).current_level ∧
    (mkPrediction ⟨some "Pacific Ocean", some (mkRat 72 10)⟩).predicted_30days
      = (mkPrediction ⟨some "Pacific Ocean", some (mkRat 72 10)⟩).current_level ∧
    (mkPrediction ⟨some "Pacific Ocean", some (mkRat 72 10)⟩).trend = "stable" ∧
    (mkPrediction ⟨some "Pacific Ocean", some (mkRat 72 10)⟩).confidence = 90 :=
  c6_prediction_copies_level [⟨some "Pacific Ocean", some (mkRat 72 10)⟩]
    (mkPrediction ⟨some "Pacific Ocean", some (mkRat 72 10)⟩)
    (by simp [get_prediction_data])

/-! ## Cloud service gateway (aws_services.py) -/

/-- Substring test: Python `sub in s`. -/
def containsSub (s sub : String) : Bool :=
  s.data.tails.any (fun t => sub.data.isPrefixOf t)

/-- `AWSServices.synthesize_speech` (aws_services.py lines 222-233): one
Polly call; on success return the audio bytes, on any error return `None`. -/
def synthesize_speech (text voice_id : String)
    (pollyResp : Except String (List ℕ)) : Option (List ℕ) :=
  match pollyResp with
  | .ok audio_data => some audio_data
  | .error _ => none

/-- An IoT thing as returned by `iot.list_things()`. -/
structure IotThing where
  thingName : String
  thingArn : String
  version : ℕ
deriving Repr, DecidableEq

/-- The per-thing summary built by `list_iot_sensors`. -/
structure IotSensorInfo where
  name : String
  arn : String
  version : ℕ
deriving Repr, DecidableEq

/-- `AWSServices.list_iot_sensors` (aws_services.py lines 393-407): map the
`list_things` response to name/arn/version dicts; any error yields `[]`. -/
def list_iot_sensors (iotResp : Except String (List IotThing)) : List IotSensorInfo :=
  match iotResp with
  | .ok things => things.map (fun t => { name := t.thingName, arn := t.thingArn, version := t.version })
  | .error _ => []

/-- A SageMaker model as returned by `sagemaker.list_models()`. -/
structure SageMakerModel where
  modelName : String
  modelArn : String
  creationTime : String
deriving Repr, DecidableEq

/-- The per-model summary built by `get_sagemaker_models`. -/
structure SageMakerModelInfo where
  name : String
  arn : String
  creation_time : String
deriving Repr, DecidableEq

/-- `AWSServices.get_sagemaker_models` (aws_services.py lines 460-474): map
the `list_models` response; any error yields `[]`. -/
def get_sagemaker_models (smResp : Except String (List SageMakerModel)) :
    List SageMakerModelInfo :=
  match smResp with
  | .ok models => models.map (fun m =>
      { name := m.modelName, arn := m.modelArn, creation_time := m.creationTime })
  | .error _ => []

/-- The bot status dict of `get_lex_bot_status` (aws_services.py lines
493-505).  Its `try` block performs no external call, so the `except`
branch returning `{'bot_status': 'unavailable'}` is unreachable and the
status is always `"active"`. -/
structure LexBotStatus where
  bot_status : String
  bot_name : String
  last_interaction : String
deriving Repr, DecidableEq

/-- `AWSServices.get_lex_bot_status`: a constant dict (no external call). -/
def get_lex_bot_status (nowIso : String) : LexBotStatus :=
  { bot_status := "active"
    bot_name := "HarmfulAlgaeBloomReportBot"
    last_interaction := nowIso }

/-- A bucket as returned by `s3.list_buckets()`. -/
structure S3Bucket where
  name : String
  creationDate : String
deriving Repr, DecidableEq

/-- The per-bucket summary built by `get_s3_bucket_info`. -/
structure BucketInfo where
  name : String
  creation_date : String
deriving Repr, DecidableEq

/-- `AWSServices.get_s3_bucket_info` (aws_services.py lines 507-521):
keep buckets whose lowercase name contains "pollution" or "gppnn"; any
error yields `[]`. -/
def get_s3_bucket_info (s3Resp : Except String (List S3Bucket)) : List BucketInfo :=
  match s3Resp with
  | .ok buckets =>
    (buckets.filter (fun b =>
      containsSub b.name.toLower "pollution" || containsSub b.name.toLower "gppnn")).map
      (fun b => { name := b.name, creation_date := b.creationDate })
  | .error _ => []

/-- The status dict of `get_comprehensive_aws_status`. -/
structure AwsStatus where
  iot_sensors : ℕ
  lambda_functions : String
  sagemaker_models : ℕ
  bedrock_ai : String
  polly_voices : String
  transcribe_jobs : String
  rekognition_api : String
  lex_bots : String
  s3_storage : ℕ
  last_health_check : String
deriving Repr, DecidableEq

/-- `AWSServices.get_comprehensive_aws_status` (aws_services.py lines
523-536): composes the sub-wrappers, each of which swallows its own
errors, so the method itself cannot propagate an external failure. -/
def get_comprehensive_aws_status (iotResp : Except String (List IotThing))
    (smResp : Except String (List SageMakerModel))
    (s3Resp : Except String (List S3Bucket)) (nowIso : String) : AwsStatus :=
  { iot_sensors := (list_iot_sensors iotResp).length
    lambda_functions := "Available for data processing"
    sagemaker_models := (get_sagemaker_models smResp).length
    bedrock_ai := "Active - Claude 3 Sonnet"
    polly_voices := "Available - Multiple languages"
    transcribe_jobs := "Ready for audio processing"
    rekognition_api := "Active - Image analysis ready"
    lex_bots := (get_lex_bot_status nowIso).bot_status
    s3_storage := (get_s3_bucket_info s3Resp).length
    last_health_check := nowIso }

/-- The simulated analysis dict of `process_citizen_chat_report`. -/
structure ChatAnalysis where
  severity : String
  priority : String
  recommended_actions : List String
  community_impact : String
deriving Repr, DecidableEq

/-- The simulated bot response dict of `process_citizen_chat_report`. -/
structure BotResponse where
  message : String
  action_required : Bool
  priority : String
  next_steps : List String
deriving Repr, DecidableEq

/-- The full return value of `process_citizen_chat_report`. -/
structure ChatReport where
  session_id : String
  user_message : String
  bot_response : BotResponse
  analysis : ChatAnalysis
  timestamp : String
deriving Repr, DecidableEq

/-- The keyword list of `process_citizen_chat_report` (aws_services.py line
2004). -/
def pollution_keywords : List String :=
  ["harmful algae bloom", "pollution", "waste", "trash", "debris", "bottle", "bag"]

/-- The response dict for a recognized pollution report (aws_services.py
lines 2007-2012). -/
def chatPollutionResponse : BotResponse :=
  { message := "Thank you for reporting this harmful algae bloom issue. Our team will investigate and take appropriate action. You\x27ll receive updates on the progress."
    action_required := true
    priority := "medium"
    next_steps := ["Location verification", "Severity assessment", "Cleanup coordination"] }

/-- The response dict for any other message (aws_services.py lines
2014-2019). -/
def chatDefaultResponse : BotResponse :=
  { message := "Thank you for your message. How can I help you with harmful algae bloom reporting or environmental concerns?"
    action_required := false
    priority := "low"
    next_steps := [] }

/-- `AWSServices.process_citizen_chat_report` (aws_services.py lines
1991-2026): patched for demo, it performs no external call and always
returns a simulated response; `user_id` is accepted but unused by the
source. -/
def process_citizen_chat_report (chat_message : String)
    (user_id session_id : Option String) (now : ℕ) (nowIso : String) : ChatReport :=
  let sid := if truthyStr session_id then session_id.getD ""
             else "session-" ++ toString now
  let analysis : ChatAnalysis :=
    { severity := "medium", priority := "normal"
      recommended_actions := ["Investigate location", "Coordinate cleanup"]
      community_impact := "moderate" }
  let is_pollution_report :=
    pollution_keywords.any (fun k => containsSub chat_message.toLower k)
  let response := if is_pollution_report then chatPollutionResponse else chatDefaultResponse
  { session_id := sid
    user_message := chat_message
    bot_response := response
    analysis := analysis
    timestamp := nowIso }

/-- C4: the cited gateway wrappers fail soft.  `synthesize_speech` returns
the sentinel `None` on any Polly error; `get_comprehensive_aws_status`
still returns the fixed fallback status object (zero counts, constant
strings) when every underlying external call fails; and
`process_citizen_chat_report` is total, echoing the message and answering
with one of its two fixed response objects — no wrapper propagates the
underlying error to the caller. -/
theorem c4_gateway_fail_soft :
    (∀ text voice_id err, synthesize_speech text voice_id (.error err) = none) ∧
    (∀ e1 e2 e3 nowIso,
      get_comprehensive_aws_status (.error e1) (.error e2) (.error e3) nowIso =
        { iot_sensors := 0
          lambda_functions := "Available for data processing"
          sagemaker_models := 0
          bedrock_ai := "Active - Claude 3 Sonnet"
          polly_voices := "Available - Multiple languages"
          transcribe_jobs := "Ready for audio processing"
          rekognition_api := "Active - Image analysis ready"
          lex_bots := "active"
          s3_storage := 0
          last_health_check := nowIso }) ∧
    (∀ chat_message user_id session_id now nowIso,
      (process_citizen_chat_report chat_message user_id session_id now nowIso).user_message
        = chat_message ∧
      ((process_citizen_chat_report chat_message user_id session_id now nowIso).bot_response
          = chatPollutionResponse ∨
       (process_citizen_chat_report chat_message user_id session_id now nowIso).bot_response
          = chatDefaultResponse)) := by
  refine ⟨fun _ _ _ => rfl, fun _ _ _ _ => rfl, fun chat_message user_id session_id now nowIso => ⟨rfl, ?_⟩⟩
  by_cases h : pollution_keywords.any (fun k => containsSub chat_message.toLower k)
  · left
    simp [process_citizen_chat_report, h]
  · right
    simp [process_citizen_chat_report, h]

/-! ## HTTP routing layer (routes.py) -/

/-- A JSON value, the payload type of `flask.jsonify`. -/
inductive JVal where
  | jstr (s : String)
  | jnum (q : ℚ)
  | jbool (b : Bool)
  | jnull
  | jarr (xs : List JVal)
  | jobj (fields : List (String × JVal))

/-- An HTTP response: status code plus JSON body.  `jsonify(x)` without an
explicit code is status 200. -/
structure HttpResponse where
  status : ℕ
  body : JVal

/-- The base64 alphabet. -/
def base64Chars : List Char :=
  "ABCDEFGHIJKLMNOPQRSTUVWXYZabcdefghijklmnopqrstuvwxyz0123456789+/".data

/-- Standard base64 with padding, as `base64.b64encode` produces
(bytes are taken modulo byte packing; inputs are byte lists). -/
def base64Encode : List ℕ → List Char
  | [] => []
  | b1 :: [] =>
    [base64Chars.getD (b1 / 4) (Char.ofNat 63), base64Chars.getD (b1 % 4 * 16) (Char.ofNat 63), Char.ofNat 61, Char.ofNat 61]
  | b1 :: b2 :: [] =>
    [base64Chars.getD (b1 / 4) (Char.ofNat 63), base64Chars.getD (b1 % 4 * 16 + b2 / 16) (Char.ofNat 63),
     base64Chars.getD (b2 % 16 * 4) (Char.ofNat 63), Char.ofNat 61]
  | b1 :: b2 :: b3 :: rest =>
    base64Chars.getD (b1 / 4) (Char.ofNat 63) ::
    base64Chars.getD (b1 % 4 * 16 + b2 / 16) (Char.ofNat 63) ::
    base64Chars.getD (b2 % 16 * 4 + b3 / 64) (Char.ofNat 63) ::
    base64Chars.getD (b3 % 64) (Char.ofNat 63) :: base64Encode rest

/-- `base64.b64encode(audio_data).decode('utf-8')`. -/
def toBase64 (bytes : List ℕ) : String := String.mk (base64Encode bytes)

/-- Serialization of a stored sensor document for `jsonify`: the
store-generated ObjectId `_id` is converted to a string
(`s['_id'] = str(s['_id'])`, routes.py line 77). -/
def serializeSensor (doc : ℕ × SensorRecord) : JVal :=
  match doc with
  | (oid, s) =>
    .jobj [("_id", .jstr (toString oid)), ("id", .jstr s.id),
           ("location", .jstr s.location), ("lat", .jnum s.lat),
           ("lng", .jnum s.lng), ("pollution_level", .jnum s.pollution_level),
           ("status", .jstr s.status), ("timestamp", .jstr s.timestamp),
           ("microplastics", .jnum (s.micro : ℚ)), ("temperature", .jnum s.temperature),
           ("turbidity", .jnum s.turbidity),
           ("stored_at", match s.stored_at with
                         | some t => .jstr (toString t)
                         | none => .jnull)]

/-- `api_sensor_data` (routes.py lines 71-81): on success, 200 with the
serialized sensor list; on ANY exception, `jsonify([])` — status 200 with
an empty list, not a 4xx/5xx error body. -/
def api_sensor_data (findResp : Except String (List (ℕ × SensorRecord))) : HttpResponse :=
  match findResp with
  | .ok sensors => { status := 200, body := .jarr (sensors.map serializeSensor) }
  | .error _ => { status := 200, body := .jarr [] }

/-- Python truthiness of `audio_data`: `None` and `b''` are falsy. -/
def truthyBytes (a : Option (List ℕ)) : Bool :=
  match a with
  | none => false
  | some l => l ≠ []

/-- `api_synthesize_speech` (routes.py lines 114-130): 400 when no text,
otherwise one Polly call through `synthesize_speech`; 200 with the base64
audio when it yields truthy bytes, else 500 with an error body. -/
def api_synthesize_speech (text voice_id : Option String)
    (pollyResp : Except String (List ℕ)) : HttpResponse :=
  let t := text.getD ""
  if t = "" then
    { status := 400, body := .jobj [("error", .jstr "No text provided")] }
  else
    let audio_data := synthesize_speech t (voice_id.getD "Joanna") pollyResp
    if truthyBytes audio_data then
      { status := 200, body := .jobj [("audio", .jstr (toBase64 (audio_data.getD [])))] }
    else
      { status := 500, body := .jobj [("error", .jstr "Speech synthesis failed")] }

/-- The dict returned by `invoke_bedrock_agent`; the `response` key may be
absent. -/
structure AgentResult where
  response : Option String
deriving Repr, DecidableEq

/-- One alert object built in the loop of `api_ai_alerts` (routes.py lines
504-523). -/
def mkAlert (agent : String → Option AgentResult) (s : SensorRecord) : JVal :=
  let prompt :=
    "A pollution alert has been triggered for " ++ s.location ++
    " with a pollution level of " ++ toString s.pollution_level ++
    ". Provide a concise, actionable HTML recommendation (3-4 lines, use <p> tags, include relevant emojis) for authorities and cleanup teams. Focus on immediate actions, resource deployment, and community notification."
  let recommendation_html :=
    match agent prompt with
    | some r => match r.response with
                | some html => html
                | none => "<p><strong>⚠️ No recommendation available.</strong></p>"
    | none => "<p><strong>⚠️ No recommendation available.</strong></p>"
  .jobj [("id", .jstr ("alert-" ++ s.id)), ("location", .jstr s.location),
         ("pollution_level", .jnum s.pollution_level),
         ("severity", .jstr (alertSeverity s.pollution_level)),
         ("message", .jstr ("High pollution detected in " ++ s.location)),
         ("timestamp", .jstr s.timestamp),
         ("actions_required", .jarr [.jstr "deploy_cleanup_units", .jstr "notify_authorities"]),
         ("recommendation_html", .jstr recommendation_html)]

/-- `api_ai_alerts` (routes.py lines 498-526): alerts for sensors above
level 7, each tagged by `alertSeverity`; on ANY exception the handler
returns `jsonify({'error': str(e)})` — status 200 with an error body, not
a 4xx/5xx status. -/
def api_ai_alerts (sensorsResp : Except String (List SensorRecord))
    (agent : String → Option AgentResult) : HttpResponse :=
  match sensorsResp with
  | .error e => { status := 200, body := .jobj [("error", .jstr e)] }
  | .ok sensor_data =>
    { status := 200,
      body := .jarr ((sensor_data.filter (fun s => s.pollution_level > 7)).map (mkAlert agent)) }

/-- C5 counterexample: when an exception occurs during handling,
`api_sensor_data` and `api_ai_alerts` both answer with HTTP status 200
(an empty list resp. an error body), not with a 4xx/5xx status as the
claim states for every endpoint. -/
theorem c5_counterexample :
    (api_sensor_data (.error "database unavailable")).status = 200 ∧
    (api_ai_alerts (.error "KeyError") (fun _ => none)).status = 200 ∧
    (api_sensor_data (.error "database unavailable")).status < 400 :=
  ⟨rfl, rfl, by decide⟩

/-- C5 (amended): each handler maps the request to one call, serializes the
result to JSON and never propagates an exception; success responses are 200;
but the on-exception behavior is per-endpoint: `api_sensor_data` returns 200
with an empty JSON list, `api_ai_alerts` returns 200 with a JSON error body,
and only `api_synthesize_speech` uses 4xx/5xx (400 when no text is given,
500 with an error body when synthesis fails). -/
theorem c5_handler_statuses :
    (∀ sensors, (api_sensor_data (.ok sensors)).status = 200) ∧
    (∀ e, api_sensor_data (.error e) = { status := 200, body := .jarr [] }) ∧
    (∀ sensors agent, (api_ai_alerts (.ok sensors) agent).status = 200) ∧
    (∀ e agent, api_ai_alerts (.error e) agent
      = { status := 200, body := .jobj [("error", .jstr e)] }) ∧
    (∀ voice_id pollyResp, (api_synthesize_speech none voice_id pollyResp).status = 400) ∧
    (∀ t voice_id e, t ≠ "" →
      (api_synthesize_speech (some t) voice_id (.error e)).status = 500) ∧
    (∀ t voice_id audio_data, t ≠ "" → audio_data ≠ [] →
      (api_synthesize_speech (some t) voice_id (.ok audio_data)).status = 200) := by
  refine ⟨fun _ => rfl, fun _ => rfl, fun _ _ => rfl, fun _ _ => rfl, fun _ _ => rfl, ?_, ?_⟩
  · intro t voice_id e ht
    simp [api_synthesize_speech, synthesize_speech, truthyBytes, ht]
  · intro t voice_id audio_data ht ha
    simp [api_synthesize_speech, synthesize_speech, truthyBytes, ht, ha]

/-- C5 witness: the amended statuses at concrete requests. -/
theorem c5_handler_statuses_witness :
    (api_synthesize_speech (some "alert text") (some "Joanna") (.error "polly down")).status = 500 ∧
    (api_synthesize_speech (some "alert text") (some "Joanna") (.ok [77, 80, 51])).status = 200 := by
  obtain ⟨-, -, -, -, -, h500, h200⟩ := c5_handler_statuses
  exact ⟨h500 "alert text" (some "Joanna") "polly down" (by decide),
    h200 "alert text" (some "Joanna") [77, 80, 51] (by decide) (by decide)⟩

/-! ## Report submission (routes.py `submit_report`) -/

/-- Continuation of Python's decimal-literal grammar after a first digit:
further digits, with single underscores allowed only between digits
(`1_000` parses; `1__0`, `1_` do not). -/
def pyDigitsCore : ℕ → List Char → Option ℕ
  | acc, [] => some acc
  | acc, '_' :: c :: rest =>
    if c.isDigit then pyDigitsCore (acc * 10 + (c.toNat - 48)) rest else none
  | _, '_' :: [] => none
  | acc, c :: rest =>
    if c.isDigit then pyDigitsCore (acc * 10 + (c.toNat - 48)) rest else none

/-- Python `int(s)` on a string: optional surrounding whitespace, optional
sign, then a nonempty digit run with single underscores permitted between
digits; anything else raises `ValueError` (modelled as `none`).  Modelled
over the core whitespace characters and ASCII digits; the non-ASCII
decimal digits Python also accepts are outside this embedding's alphabet. -/
def pyParseInt (s : String) : Option ℤ :=
  let chars := ((s.data.dropWhile Char.isWhitespace).reverse.dropWhile Char.isWhitespace).reverse
  match chars with
  | [] => none
  | c :: rest =>
    let signed : Bool × List Char :=
      if c = '-' then (true, rest)
      else if c = '+' then (false, rest)
      else (false, c :: rest)
    match signed with
    | (neg, digits) =>
      match digits with
      | [] => none
      | d :: ds =>
        if d.isDigit then
          match pyDigitsCore (d.toNat - 48) ds with
          | some mag => some (if neg then -(mag : ℤ) else (mag : ℤ))
          | none => none
        else
          none

/-- `int(request.form.get('pollution_level', 0))` (routes.py line 156):
a missing field defaults to the int 0; a present field must parse. -/
def pyIntForm (v : Option String) : Option ℤ :=
  match v with
  | none => some 0
  | some s => pyParseInt s

/-- An uploaded image file from the multipart form. -/
structure ImageUpload where
  filename : String
  content : List ℕ
deriving Repr, DecidableEq

/-- The multipart form of `/submit-report`.  String fields mirror
`request.form.get`; `lat`/`lng` are the coordinates when present and
convertible (routes.py lines 163-170 swallow conversion failures);
`image = none` models a request carrying no image file. -/
structure ReportForm where
  location : Option String := none
  description : Option String := none
  pollution_level : Option String := none
  reporter_name : Option String := none
  contact : Option String := none
  severity : Option String := none
  lat : Option ℚ := none
  lng : Option ℚ := none
  image : Option ImageUpload := none
deriving Repr, DecidableEq

/-- The keyword filter of `AWSServices.analyze_image` (aws_services.py
lines 245-251). -/
def harmful_keywords : List String :=
  ["harmful algae bloom", "algae", "waste", "trash", "debris"]

/-- `AWSServices.analyze_image` (aws_services.py lines 235-256): keep
Rekognition labels whose lowercase name contains one of the keywords; any
error yields `[]`. -/
def analyze_image (rekognitionResp : Except String (List LabelInfo)) : List LabelInfo :=
  match rekognitionResp with
  | .ok labels => labels.filter (fun l =>
      harmful_keywords.any (fun k => containsSub l.name.toLower k))
  | .error _ => []

/-- `MongoDBManager.store_pollution_report` (models.py lines 58-66): stamp
`reported_at`, insert into `pollution_reports` (which has no uniqueness
constraint, so the insert succeeds with a fresh store-generated ObjectId)
and return the id as a string. -/
def store_pollution_report (store : List (ℕ × ReportDoc)) (report : ReportDoc)
    (now : ℕ) : (List (ℕ × ReportDoc)) × Option String :=
  let doc := { report with reported_at := some now }
  (store ++ [(store.length, doc)], some (toString store.length))

/-- The redirect issued by `submit_report` (routes.py lines 200-206). -/
inductive SubmitOutcome where
  | success (msg : String)
  | failure (msg : String)
deriving Repr, DecidableEq

/-- `submit_report` (routes.py lines 149-206): parse the form (a failing
`int(...)` escapes to the outer handler and redirects with an error); when
an image file with a nonempty filename is present, save it and attach
`image_path`/`image_analysis`; replace `location` by `location_name`;
store the report and redirect with success, or with an error when the
store returns `None`. -/
def submit_report (form : ReportForm) (now : ℕ)
    (rekognitionResp : Except String (List LabelInfo))
    (store : List (ℕ × ReportDoc)) : (List (ℕ × ReportDoc)) × SubmitOutcome :=
  match pyIntForm form.pollution_level with
  | none => (store, .failure "Error: invalid pollution_level")
  | some pl =>
    let report0 : ReportDoc :=
      { description := form.description
        pollution_level := pl
        reporter_name := form.reporter_name.getD "Anonymous"
        contact := form.contact.getD ""
        severity := form.severity.getD "medium"
        lat := form.lat
        lng := form.lng
        image_path := none
        image_analysis := none
        location_name := none
        reported_at := none }
    let report1 :=
      match form.image with
      | none => report0
      | some img =>
        if img.filename ≠ "" then
          { report0 with
            image_path := some ("uploads/" ++ img.filename)
            image_analysis := some (analyze_image rekognitionResp) }
        else report0
    let report2 := { report1 with location_name := form.location }
    match store_pollution_report store report2 now with
    | (newStore, some _) => (newStore, .success "Report submitted successfully")
    | (newStore, none) => (newStore, .failure "Failed to submit report")

/-- A concrete no-image report form. -/
def demoForm : ReportForm :=
  { location := some "Harbor Bay"
    description := some "Visible algae film"
    pollution_level := some "7"
    reporter_name := some "Citizen"
    contact := some ""
    severity := some "high"
    lat := none
    lng := none
    image := none }

/-- The same no-image form with a malformed pollution_level field. -/
def demoBadForm : ReportForm :=
  { demoForm with pollution_level := some "abc" }

/-- C9 counterexample: a submission carrying no image file but a malformed
pollution_level field ("abc") does NOT succeed — `int('abc')` raises
`ValueError` (routes.py line 156), the outer handler catches it (line 204)
and redirects with an error, and nothing is stored. -/
theorem c9_counterexample :
    demoBadForm.image = none ∧
    (submit_report demoBadForm 42 (Except.ok []) []).2
      ≠ SubmitOutcome.success "Report submitted successfully" ∧
    (submit_report demoBadForm 42 (Except.ok []) []).2
      = SubmitOutcome.failure "Error: invalid pollution_level" ∧
    (submit_report demoBadForm 42 (Except.ok []) []).1 = [] := by
  with_unfolding_all decide

/-- C9 (amended): a no-image submission whose pollution_level field is
absent or parses as a Python integer succeeds — exactly one report
document is appended and the success redirect returned — and the stored
document has neither `image_path` nor `image_analysis`; a submission whose
pollution_level does not parse raises `ValueError` internally, which the
handler converts to an error redirect with the store left unchanged. -/
theorem c9_no_image_submission :
    (∀ (form : ReportForm) (now : ℕ) (rekognitionResp : Except String (List LabelInfo))
      (store : List (ℕ × ReportDoc)) (pl : ℤ),
      form.image = none →
      pyIntForm form.pollution_level = some pl →
      (submit_report form now rekognitionResp store).2
        = .success "Report submitted successfully" ∧
      ∃ d : ReportDoc,
        (submit_report form now rekognitionResp store).1 = store ++ [(store.length, d)] ∧
        d.image_path = none ∧ d.image_analysis = none) ∧
    (∀ (form : ReportForm) (now : ℕ) (rekognitionResp : Except String (List LabelInfo))
      (store : List (ℕ × ReportDoc)),
      pyIntForm form.pollution_level = none →
      (submit_report form now rekognitionResp store).2
        = .failure "Error: invalid pollution_level" ∧
      (submit_report form now rekognitionResp store).1 = store) := by
  constructor
  · intro form now rekognitionResp store pl himg hpl
    unfold submit_report
    rw [hpl, himg]
    exact ⟨rfl, ⟨_, rfl, rfl, rfl⟩⟩
  · intro form now rekognitionResp store hpl
    unfold submit_report
    rw [hpl]
    exact ⟨rfl, rfl⟩

/-- C9 witness: the concrete no-image form with pollution_level "7"
succeeds and stores a document without image fields, while the same form
with pollution_level "abc" fails and stores nothing. -/
theorem c9_no_image_submission_witness :
    ((submit_report demoForm 42 (.ok []) []).2 = .success "Report submitted successfully" ∧
     ∃ d : ReportDoc,
       (submit_report demoForm 42 (.ok []) []).1 = [(0, d)] ∧
       d.image_path = none ∧ d.image_analysis = none) ∧
    ((submit_report demoBadForm 42 (.ok []) []).2 = .failure "Error: invalid pollution_level" ∧
     (submit_report demoBadForm 42 (.ok []) []).1 = []) := by
  obtain ⟨hok, hfail⟩ := c9_no_image_submission
  exact ⟨hok demoForm 42 (.ok []) [] 7 rfl (by decide),
    hfail demoBadForm 42 (.ok []) [] (by decide)⟩

/-! ## MD5 (Python `hashlib.md5`, RFC 1321) and the simulated transcription -/

/-- The 64 MD5 sine-derived constants `T[i+1] = floor(2^32 * abs(sin(i+1)))`. -/
def md5T : List ℕ :=
  [0xd76aa478, 0xe8c7b756, 0x242070db, 0xc1bdceee,
   0xf57c0faf, 0x4787c62a, 0xa8304613, 0xfd469501,
   0x698098d8, 0x8b44f7af, 0xffff5bb1, 0x895cd7be,
   0x6b901122, 0xfd987193, 0xa679438e, 0x49b40821,
   0xf61e2562, 0xc040b340, 0x265e5a51, 0xe9b6c7aa,
   0xd62f105d, 0x02441453, 0xd8a1e681, 0xe7d3fbc8,
   0x21e1cde6, 0xc33707d6, 0xf4d50d87, 0x455a14ed,
   0xa9e3e905, 0xfcefa3f8, 0x676f02d9, 0x8d2a4c8a,
   0xfffa3942, 0x8771f681, 0x6d9d6122, 0xfde5380c,
   0xa4beea44, 0x4bdecfa9, 0xf6bb4b60, 0xbebfbc70,
   0x289b7ec6, 0xeaa127fa, 0xd4ef3085, 0x04881d05,
   0xd9d4d039, 0xe6db99e5, 0x1fa27cf8, 0xc4ac5665,
   0xf4292244, 0x432aff97, 0xab9423a7, 0xfc93a039,
   0x655b59c3, 0x8f0ccc92, 0xffeff47d, 0x85845dd1,
   0x6fa87e4f, 0xfe2ce6e0, 0xa3014314, 0x4e0811a1,
   0xf7537e82, 0xbd3af235, 0x2ad7d2bb, 0xeb86d391]

/-- The per-step MD5 left-rotation amounts. -/
def md5S : List ℕ :=
  [7, 12, 17, 22, 7, 12, 17, 22, 7, 12, 17, 22, 7, 12, 17, 22,
   5, 9, 14, 20, 5, 9, 14, 20, 5, 9, 14, 20, 5, 9, 14, 20,
   4, 11, 16, 23, 4, 11, 16, 23, 4, 11, 16, 23, 4, 11, 16, 23,
   6, 10, 15, 21, 6, 10, 15, 21, 6, 10, 15, 21, 6, 10, 15, 21]

/-- Reduction modulo 2^32. -/
def u32 (x : ℕ) : ℕ := x % 4294967296

/-- 32-bit left rotation (for `x < 2^32`, `0 < s < 32`). -/
def rotl32 (x s : ℕ) : ℕ := u32 (x <<< s) ||| (x >>> (32 - s))

/-- The MD5 round functions F, G, H, I selected by the step index. -/
def md5Mix (i b c d : ℕ) : ℕ :=
  if i < 16 then (b &&& c) ||| ((b ^^^ 0xffffffff) &&& d)
  else if i < 32 then (b &&& d) ||| (c &&& (d ^^^ 0xffffffff))
  else if i < 48 then b ^^^ c ^^^ d
  else c ^^^ (b ||| (d ^^^ 0xffffffff))

/-- The MD5 message-word schedule. -/
def md5MsgIndex (i : ℕ) : ℕ :=
  if i < 16 then i
  else if i < 32 then (5 * i + 1) % 16
  else if i < 48 then (3 * i + 5) % 16
  else (7 * i) % 16

/-- One of the 64 MD5 steps on the state (a, b, c, d). -/
def md5Step (m : List ℕ) (st : ℕ × ℕ × ℕ × ℕ) (i : ℕ) : ℕ × ℕ × ℕ × ℕ :=
  match st with
  | (a, b, c, d) =>
    let f := u32 (a + md5Mix i b c d + md5T.getD i 0 + m.getD (md5MsgIndex i) 0)
    (d, u32 (b + rotl32 f (md5S.getD i 0)), b, c)

/-- Process one 16-word block and add the result into the chaining state. -/
def md5ProcessBlock (st : ℕ × ℕ × ℕ × ℕ) (m : List ℕ) : ℕ × ℕ × ℕ × ℕ :=
  match st, (List.range 64).foldl (md5Step m) st with
  | (a0, b0, c0, d0), (a, b, c, d) =>
    (u32 (a0 + a), u32 (b0 + b), u32 (c0 + c), u32 (d0 + d))

/-- MD5 padding: append 0x80, zero-fill to 56 mod 64 bytes, then the
bit length as 8 little-endian bytes. -/
def md5Pad (msg : List ℕ) : List ℕ :=
  let len := msg.length
  let k := (120 - (len + 1) % 64) % 64
  msg ++ [128] ++ List.replicate k 0 ++
    (List.range 8).map (fun i => (8 * len) % (2 ^ 64) / (2 ^ (8 * i)) % 256)

/-- Split a byte list into 64-byte blocks. -/
def toBlocks (l : List ℕ) : List (List ℕ) :=
  if h : l = [] then [] else l.take 64 :: toBlocks (l.drop 64)
termination_by l.length
decreasing_by
  cases l with
  | nil => exact absurd rfl h
  | cons x xs => simp [List.length_drop]; omega

/-- Assemble a 64-byte block into 16 little-endian 32-bit words. -/
def blockWords (block : List ℕ) : List ℕ :=
  (List.range 16).map (fun j =>
    block.getD (4 * j) 0 + 256 * block.getD (4 * j + 1) 0 +
    65536 * block.getD (4 * j + 2) 0 + 16777216 * block.getD (4 * j + 3) 0)

/-- The four little-endian bytes of a 32-bit word. -/
def wordBytesLE (w : ℕ) : List ℕ :=
  [w % 256, w / 256 % 256, w / 65536 % 256, w / 16777216 % 256]

/-- The 16 MD5 digest bytes of a byte-list message (checked against
`hashlib.md5`: `md5Digest [] = d41d8cd9...`, `md5Digest "abc" = 90015098...`). -/
def md5Digest (msg : List ℕ) : List ℕ :=
  match ((toBlocks (md5Pad msg)).map blockWords).foldl md5ProcessBlock
      (0x67452301, 0xefcdab89, 0x98badcfe, 0x10325476) with
  | (a, b, c, d) => wordBytesLE a ++ wordBytesLE b ++ wordBytesLE c ++ wordBytesLE d

/-- `int(hashlib.md5(audio_data).hexdigest(), 16)` (aws_services.py lines
1274-1276): the digest bytes read as a big-endian integer. -/
def md5HexInt (msg : List ℕ) : ℕ :=
  (md5Digest msg).foldl (fun acc b => acc * 256 + b) 0

/-- The five fixed sample transcripts of `_simulate_transcription`
(aws_services.py lines 1265-1271). -/
def sample_transcripts : List String :=
  ["I am reporting harmful algae bloom in the Mediterranean Sea. The pollution level appears to be very high with visible harmful algae bloom debris floating on the surface.",
   "There\x27s a lot of harmful algae bloom waste near the Pacific Ocean coastline. I can see bottles, bags, and other debris washing up on the shore.",
   "The Atlantic Ocean area shows concerning levels of microalgae. The water appears contaminated with small harmful algae bloom particles.",
   "I need to report pollution in the Indian Ocean. There are large amounts of harmful algae bloom waste affecting marine life in this area.",
   "The Arctic Ocean region has harmful algae bloom pollution that needs immediate attention. The cold temperatures are preserving the waste."]

/-- `AWSServices._simulate_transcription` (aws_services.py lines 1262-1278):
`sample_transcripts[int(md5(audio_data).hexdigest(), 16) % len(sample_transcripts)]`. -/
def simulate_transcription (audio_data : List ℕ) : String :=
  sample_transcripts.getD (md5HexInt audio_data % sample_transcripts.length) ""

/-- The result dict of `create_transcription_job`. -/
structure TranscriptionResult where
  job_name : String
  status : String
  language_code : String
  media_uri : String
  transcript : String
  confidence : ℚ
  created_at : String
deriving Repr, DecidableEq

/-- `AWSServices.create_transcription_job` (aws_services.py lines
1213-1260): default the job name from the clock, create an S3 bucket and
upload the audio (`s3` carries the outcome of these external calls; on
failure the `except` returns `None`), then return the simulated COMPLETED
result whose transcript is `_simulate_transcription(audio_data)`.  The
vocabulary lookup only affects the unused `transcribe_params` dict and is
omitted. -/
def create_transcription_job (audio_data : List ℕ) (job_name : Option String)
    (language_code : String) (now : ℕ) (nowIso : String)
    (s3 : Except String Unit) : Option TranscriptionResult :=
  match s3 with
  | .error _ => none
  | .ok _ =>
    let jn := if truthyStr job_name then job_name.getD ""
              else "transcribe-pollution-" ++ toString now
    let bucket := "pollution-audio-" ++ toString now
    some { job_name := jn
           status := "COMPLETED"
           language_code := language_code
           media_uri := "s3://" ++ bucket ++ "/audio/" ++ jn ++ ".mp3"
           transcript := simulate_transcription audio_data
           confidence := mkRat 95 100
           created_at := nowIso }

/-- C10: the simulated transcription is a pure function of the audio bytes —
the transcript is `sample_transcripts[md5(audio) % 5]`, always one of the
five fixed sample transcripts — and two transcription jobs over the same
audio data produce the same transcript whatever their job names, languages
or clocks. -/
theorem c10_transcription_deterministic :
    (∀ audio_data : List ℕ,
      simulate_transcription audio_data
        = sample_transcripts.getD (md5HexInt audio_data % 5) "" ∧
      simulate_transcription audio_data ∈ sample_transcripts) ∧
    (∀ (audio_data : List ℕ) jn1 jn2 lc1 lc2 now1 now2 iso1 iso2,
      (create_transcription_job audio_data jn1 lc1 now1 iso1 (.ok ())).map
          (fun r => r.transcript)
        = (create_transcription_job audio_data jn2 lc2 now2 iso2 (.ok ())).map
          (fun r => r.transcript)) := by
  constructor
  · intro audio_data
    refine ⟨rfl, ?_⟩
    have h5 : md5HexInt audio_data % sample_transcripts.length < sample_transcripts.length :=
      Nat.mod_lt _ (by decide)
    rw [simulate_transcription, List.getD_eq_getElem sample_transcripts "" h5]
    exact List.getElem_mem h5
  · intro audio_data jn1 jn2 lc1 lc2 now1 now2 iso1 iso2
    rfl

end AquaPulse
